import Mathlib

/-!
Verification of the directional-sector and path-locking engine of the
Controller-Wrapper-For-Sentakki repository, shallowly embedded from
`src/ControllerMapper.cpp` (geometry primitives, lock resolver, position
projector) and `src/TouchMode.cpp` (the per-cycle touch state machine).

C++ `double` arithmetic is modelled by exact real arithmetic `ℝ`; the
code's `PI` constant `3.14159265359` (ControllerInput.h) is kept as the
exact rational it denotes, so the embedded angle pipeline reproduces the
source formulas literally.  `int` is modelled by `ℤ`; every `%` in the
translated code is applied to non-negative operands, where C++ `%` and
`Int.emod` agree.
-/

namespace CWS

noncomputable section

/-- `ControllerMapper::PI` (ControllerInput.h line 163): the literal
`3.14159265359`, not the mathematical `π`. -/
def PI : ℝ := 3.14159265359

/-- `ControllerMapper::DIRECTION_SECTORS` (ControllerInput.h line 169). -/
def DIRECTION_SECTORS : ℤ := 8

/-- `ControllerMapper::DEGREES_PER_SECTOR` (ControllerInput.h line 170). -/
def DEGREES_PER_SECTOR : ℝ := 45.0

/-- C `std::atan2(y, x)`, modelled as the argument of the complex number
`x + y·i`, which lies in `(-π, π]` and agrees with `atan2` away from the
negative-x-axis edge cases that the callers never hit. -/
def atan2 (y x : ℝ) : ℝ := Complex.arg (x + y * Complex.I)

/-- `ControllerMapper::calculateAngle` (ControllerMapper.cpp lines 1125-1148):
angle of the stick vector, re-based so 0° is up and increasing clockwise;
`-1` is the no-input sentinel for the exact center. -/
def calculateAngle (x y : ℝ) : ℝ :=
  if x = 0 ∧ y = 0 then -1
  else
    let angle := atan2 y x * 180 / PI
    let angle := if angle < 0 then angle + 360 else angle
    let angle := angle - 90
    let angle := if angle < 0 then angle + 360 else angle
    360 - angle

/-- `ControllerMapper::getDirection` (ControllerMapper.cpp lines 1150-1160):
sector index `floor(angle / 45)`, clamped back to `0` when the floor
reaches `8`, with `-1` passed through as the no-input sentinel. -/
def getDirection (angle : ℝ) : ℤ :=
  if angle = -1 then -1
  else
    let direction := ⌊angle / DEGREES_PER_SECTOR⌋
    if direction ≥ DIRECTION_SECTORS then 0 else direction

/-- `ControllerMapper::getAdjacentDirections` (ControllerMapper.cpp lines
1162-1171). -/
def getAdjacentDirections (direction : ℤ) : ℤ × ℤ :=
  if direction < 0 ∨ direction ≥ DIRECTION_SECTORS then (-1, -1)
  else ((direction - 1 + DIRECTION_SECTORS) % DIRECTION_SECTORS,
        (direction + 1) % DIRECTION_SECTORS)

/-- The repeated `(direction * DEGREES_PER_SECTOR) + 22.5; if (a >= 360) a -= 360;`
pattern that computes the angular center of a sector (appears inline in
`getDirectionArcCenter`, `checkPointerLock` and `calculateLockedPosition`). -/
def sectorCenterAngle (direction : ℤ) : ℝ :=
  let centerAngle := (direction : ℝ) * DEGREES_PER_SECTOR + 22.5
  if centerAngle ≥ 360 then centerAngle - 360 else centerAngle

/-- `ControllerMapper::getDirectionArcCenter` (ControllerMapper.cpp lines
1173-1188): unit-circle point of a sector's angular center, `x = sin`,
`y = cos`; out-of-range sectors give the origin. -/
def getDirectionArcCenter (direction : ℤ) : ℝ × ℝ :=
  if direction < 0 ∨ direction ≥ DIRECTION_SECTORS then (0, 0)
  else
    let angleRad := sectorCenterAngle direction * PI / 180
    (Real.sin angleRad, Real.cos angleRad)

/-- The repeated `d = |a - b|; if (d > 180) d = 360 - d;` pattern: circular
angular distance used twice inside `checkPointerLock`. -/
def circularDistance (a b : ℝ) : ℝ :=
  let d := |a - b|
  if d > 180 then 360 - d else d

/-- `ControllerMapper::checkPointerLock` (ControllerMapper.cpp lines
1190-1228).  The C++ function returns `bool` with an out-parameter that is
written only on success; this is modelled as `Option ℤ` (`none` ↔ `false`). -/
def checkPointerLock (heldDirection currentDirection : ℤ)
    (currentAngle : ℝ) : Option ℤ :=
  if heldDirection < 0 ∨ currentDirection < 0 then none
  else
    let oppositeDirection := (heldDirection + 4) % 8
    let leftAdjacent := (oppositeDirection - 1 + 8) % 8
    let rightAdjacent := (oppositeDirection + 1) % 8
    let angleDiffToLeft := circularDistance currentAngle (sectorCenterAngle leftAdjacent)
    let angleDiffToRight := circularDistance currentAngle (sectorCenterAngle rightAdjacent)
    if angleDiffToLeft < angleDiffToRight then some leftAdjacent
    else some rightAdjacent

/-- `ControllerMapper::calculateLockedPosition` (ControllerMapper.cpp lines
1230-1270): projects the live stick position onto the segment from the held
sector's arc center toward the locked sector's arc center, with the
projection scalar clamped to `[0, pathLength]`. -/
def calculateLockedPosition (heldDirection lockedDirection : ℤ)
    (currentX currentY : ℝ) : ℝ × ℝ :=
  let heldAngle := sectorCenterAngle heldDirection
  let endAngle := sectorCenterAngle lockedDirection
  let pathX := Real.sin (endAngle * PI / 180) - Real.sin (heldAngle * PI / 180)
  let pathY := Real.cos (endAngle * PI / 180) - Real.cos (heldAngle * PI / 180)
  let pathLength := Real.sqrt (pathX * pathX + pathY * pathY)
  let pathX := if pathLength > 0 then pathX / pathLength else pathX
  let pathY := if pathLength > 0 then pathY / pathLength else pathY
  let held := getDirectionArcCenter heldDirection
  let rawDx := currentX - held.1
  let rawDy := currentY - held.2
  let t := rawDx * pathX + rawDy * pathY
  let t := if t < 0 then 0 else t
  let t := if t > pathLength then pathLength else t
  (held.1 + t * pathX, held.2 + t * pathY)

/-! ## The TouchMode per-cycle state machine (src/TouchMode.cpp)

`ControllerMapper::handleTouchControl` (TouchMode.cpp lines 637-865) is the
per-cycle step of the Direction Tracker.  The member variables it reads and
writes (declared in ControllerInput.h, zero-initialized to
`false`/`-1` in the `ControllerMapper` constructor) form `TouchState`; the
`sendTouch` / `sendPalmTouch` / `sendMultipleTouches` calls perform only
output-sink I/O and overlay bookkeeping that the control logic never reads
back, so they are modelled as emitted `TouchEvent`s.  Each `*Block`
definition below is one top-level `if` block of the C++ function, in the
order the function executes them. -/

/-- An output-sink call made during a cycle.
`touch i x y isDown isUp` is `sendTouch(i, x, y, isDown, isUp)`;
`palmTouch` is `sendPalmTouch(x, y, centerId, aroundStartId, isDown, isUp)`;
`bothTouches` is the combined `sendBothTouchesIfActive` emission carrying
the final left and right send positions. -/
inductive TouchEvent where
  | touch (touchId : ℕ) (x y : ℝ) (isDown isUp : Bool)
  | palmTouch (x y : ℝ) (centerId aroundStartId : ℕ) (isDown isUp : Bool)
  | bothTouches (leftX leftY rightX rightY : ℝ)
deriving DecidableEq

/-- The `ControllerMapper` members read/written by `handleTouchControl`,
plus the `g_*` static debug counters.  (The `touchX`/`touchY`/`touchActive`
overlay-tracking arrays written by `sendTouch` are display-only and never
read by the control logic, so they are omitted.) -/
structure TouchState where
  leftTouchActive : Bool
  rightTouchActive : Bool
  currentLHeldDirection : ℤ
  currentRHeldDirection : ℤ
  currentLHeldX : ℝ
  currentLHeldY : ℝ
  currentRHeldX : ℝ
  currentRHeldY : ℝ
  leftPointerLocked : Bool
  rightPointerLocked : Bool
  leftLockedDirection : ℤ
  rightLockedDirection : ℤ
  prevL1 : Bool
  prevR1 : Bool
  prevL2 : Bool
  prevR2 : Bool
  prevL3 : Bool
  prevR3 : Bool
  l3TouchActive : Bool
  r3TouchActive : Bool
  gAnyButtonPressed : Bool
  gPrevAnyButtonPressed : Bool
  gButtonPressCounter : ℤ

/-- The zero-initialized state established by the `ControllerMapper`
constructor (ControllerMapper.cpp lines 5-34): all flags `false`, all
captured directions `-1`.  (`currentLHeldX`/`...Y` are absent from the
C++ initializer list — they are written before any read — and are taken
as `0` here.) -/
def initTouchState : TouchState where
  leftTouchActive := false
  rightTouchActive := false
  currentLHeldDirection := -1
  currentRHeldDirection := -1
  currentLHeldX := 0
  currentLHeldY := 0
  currentRHeldX := 0
  currentRHeldY := 0
  leftPointerLocked := false
  rightPointerLocked := false
  leftLockedDirection := -1
  rightLockedDirection := -1
  prevL1 := false
  prevR1 := false
  prevL2 := false
  prevR2 := false
  prevL3 := false
  prevR3 := false
  l3TouchActive := false
  r3TouchActive := false
  gAnyButtonPressed := false
  gPrevAnyButtonPressed := false
  gButtonPressCounter := 0

/-- `ControllerMapper::handleTouchMovementUpdate` (TouchMode.cpp lines
582-635).  `touchActive` and `heldDirection` are passed by reference in
C++ but only read; the function's net writes are `lockedState` and
`lockedDirection`, returned here together with the emitted events. -/
def handleTouchMovementUpdate (touchId : ℕ) (touchActive bumperPressed stickPressPressed : Bool)
    (heldDirection : ℤ) (lockedState : Bool) (lockedDirection : ℤ)
    (currentX currentY currentAngle : ℝ) (currentDirection : ℤ)
    (skipIfOtherActive : Bool) : Bool × ℤ × List TouchEvent :=
  if !touchActive || (!bumperPressed && !stickPressPressed) then
    (lockedState, lockedDirection, [])
  else
    let shouldCheckLocking := stickPressPressed && decide (heldDirection ≥ 0)
    if shouldCheckLocking then
      match checkPointerLock heldDirection currentDirection currentAngle with
      | some newLockedDirection =>
        let upd :=
          if !lockedState || decide (lockedDirection ≠ newLockedDirection) then
            (true, newLockedDirection)
          else (lockedState, lockedDirection)
        let p := calculateLockedPosition heldDirection newLockedDirection currentX currentY
        (upd.1, upd.2,
          if !skipIfOtherActive then [TouchEvent.touch touchId p.1 p.2 false false] else [])
      | none =>
        let upd := if lockedState then (false, (-1 : ℤ)) else (lockedState, lockedDirection)
        (upd.1, upd.2,
          if !skipIfOtherActive then [TouchEvent.touch touchId currentX currentY false false] else [])
    else
      let upd := if lockedState then (false, (-1 : ℤ)) else (lockedState, lockedDirection)
      (upd.1, upd.2,
        if !skipIfOtherActive then [TouchEvent.touch touchId currentX currentY false false] else [])

/-- TouchMode.cpp lines 674-680: `if (l2Pressed) { ... }`. -/
def l2PressedBlock (s : TouchState) (l2Pressed : Bool) (lDirection : ℤ)
    (leftX leftY : ℝ) : TouchState × List TouchEvent :=
  if l2Pressed then
    ({ s with currentLHeldDirection := lDirection, currentLHeldX := leftX,
              currentLHeldY := leftY, leftTouchActive := true },
     [TouchEvent.touch 0 leftX leftY true false])
  else (s, [])

/-- TouchMode.cpp lines 682-690: `if (l2Released) { ... }`. -/
def l2ReleasedBlock (s : TouchState) (l2Released : Bool)
    (leftX leftY : ℝ) : TouchState × List TouchEvent :=
  if l2Released then
    let s := { s with leftPointerLocked := false, leftLockedDirection := -1,
                      currentLHeldDirection := -1 }
    if s.leftTouchActive then
      ({ s with leftTouchActive := false }, [TouchEvent.touch 0 leftX leftY false true])
    else (s, [])
  else (s, [])

/-- TouchMode.cpp lines 693-699: `if (r2Pressed) { ... }`. -/
def r2PressedBlock (s : TouchState) (r2Pressed : Bool) (rDirection : ℤ)
    (rightX rightY : ℝ) : TouchState × List TouchEvent :=
  if r2Pressed then
    ({ s with currentRHeldDirection := rDirection, currentRHeldX := rightX,
              currentRHeldY := rightY, rightTouchActive := true },
     [TouchEvent.touch 1 rightX rightY true false])
  else (s, [])

/-- TouchMode.cpp lines 701-709: `if (r2Released) { ... }`. -/
def r2ReleasedBlock (s : TouchState) (r2Released : Bool)
    (rightX rightY : ℝ) : TouchState × List TouchEvent :=
  if r2Released then
    let s := { s with rightPointerLocked := false, rightLockedDirection := -1,
                      currentRHeldDirection := -1 }
    if s.rightTouchActive then
      ({ s with rightTouchActive := false }, [TouchEvent.touch 1 rightX rightY false true])
    else (s, [])
  else (s, [])

/-- TouchMode.cpp lines 711-737: the `if (!l3TouchActive) { ... }` block
handling L1 presses, movement updates and the L2-held movement update. -/
def l1Block (s : TouchState) (l1 l2 l1Pressed l1Released : Bool)
    (leftX leftY lAngle : ℝ) (lDirection : ℤ) : TouchState × List TouchEvent :=
  if !s.l3TouchActive then
    let step1 :
        TouchState × List TouchEvent :=
      if l1Pressed && !s.leftTouchActive then
        ({ s with leftTouchActive := true }, [TouchEvent.touch 0 leftX leftY true false])
      else if s.leftTouchActive && l1 then
        let r := handleTouchMovementUpdate 0 s.leftTouchActive l1 l2
          s.currentLHeldDirection s.leftPointerLocked s.leftLockedDirection
          leftX leftY lAngle lDirection s.rightTouchActive
        ({ s with leftPointerLocked := r.1, leftLockedDirection := r.2.1 }, r.2.2)
      else (s, [])
    let s1 := step1.1
    let step2 :
        TouchState × List TouchEvent :=
      if l1Released && s1.leftTouchActive then
        ({ s1 with leftTouchActive := false }, [TouchEvent.touch 0 leftX leftY false true])
      else (s1, [])
    let s2 := step2.1
    let step3 :
        TouchState × List TouchEvent :=
      if s2.leftTouchActive && l2 then
        let r := handleTouchMovementUpdate 0 s2.leftTouchActive (l1 || l2) l2
          s2.currentLHeldDirection s2.leftPointerLocked s2.leftLockedDirection
          leftX leftY lAngle lDirection s2.rightTouchActive
        ({ s2 with leftPointerLocked := r.1, leftLockedDirection := r.2.1 }, r.2.2)
      else (s2, [])
    (step3.1, step1.2 ++ step2.2 ++ step3.2)
  else (s, [])

/-- TouchMode.cpp lines 739-765: the `if (!r3TouchActive) { ... }` block,
mirror image of `l1Block` for the right side (touch id 1). -/
def r1Block (s : TouchState) (r1 r2 r1Pressed r1Released : Bool)
    (rightX rightY rAngle : ℝ) (rDirection : ℤ) : TouchState × List TouchEvent :=
  if !s.r3TouchActive then
    let step1 :
        TouchState × List TouchEvent :=
      if r1Pressed && !s.rightTouchActive then
        ({ s with rightTouchActive := true }, [TouchEvent.touch 1 rightX rightY true false])
      else if s.rightTouchActive && r1 then
        let r := handleTouchMovementUpdate 1 s.rightTouchActive r1 r2
          s.currentRHeldDirection s.rightPointerLocked s.rightLockedDirection
          rightX rightY rAngle rDirection s.leftTouchActive
        ({ s with rightPointerLocked := r.1, rightLockedDirection := r.2.1 }, r.2.2)
      else (s, [])
    let s1 := step1.1
    let step2 :
        TouchState × List TouchEvent :=
      if r1Released && s1.rightTouchActive then
        ({ s1 with rightTouchActive := false }, [TouchEvent.touch 1 rightX rightY false true])
      else (s1, [])
    let s2 := step2.1
    let step3 :
        TouchState × List TouchEvent :=
      if s2.rightTouchActive && r2 then
        let r := handleTouchMovementUpdate 1 s2.rightTouchActive (r1 || r2) r2
          s2.currentRHeldDirection s2.rightPointerLocked s2.rightLockedDirection
          rightX rightY rAngle rDirection s2.leftTouchActive
        ({ s2 with rightPointerLocked := r.1, rightLockedDirection := r.2.1 }, r.2.2)
      else (s2, [])
    (step3.1, step1.2 ++ step2.2 ++ step3.2)
  else (s, [])

/-- TouchMode.cpp lines 769-795: the combined multi-touch emission
(`if (leftTouchActive && rightTouchActive) { ... }` followed by
`sendBothTouchesIfActive`, whose own guard re-checks both actives). -/
def bothSendBlock (s : TouchState) (leftX leftY rightX rightY : ℝ) : List TouchEvent :=
  if s.leftTouchActive && s.rightTouchActive then
    let leftSend :=
      if s.leftPointerLocked && decide (s.currentLHeldDirection ≥ 0) then
        calculateLockedPosition s.currentLHeldDirection s.leftLockedDirection leftX leftY
      else (leftX, leftY)
    let rightSend :=
      if s.rightPointerLocked && decide (s.currentRHeldDirection ≥ 0) then
        calculateLockedPosition s.currentRHeldDirection s.rightLockedDirection rightX rightY
      else (rightX, rightY)
    [TouchEvent.bothTouches leftSend.1 leftSend.2 rightSend.1 rightSend.2]
  else []

/-- TouchMode.cpp lines 797-817: the L3 nine-touch palm block, which locks
out L1/L2 by force-closing the left session when it turns on. -/
def l3Block (s : TouchState) (l3 l3Pressed l3Released : Bool)
    (leftX leftY : ℝ) : TouchState × List TouchEvent :=
  let step1 :
      TouchState × List TouchEvent :=
    if l3Pressed && !s.l3TouchActive then
      let s1 := { s with l3TouchActive := true }
      if s1.leftTouchActive then
        ({ s1 with leftTouchActive := false, leftPointerLocked := false,
                   leftLockedDirection := -1, currentLHeldDirection := -1 },
         [TouchEvent.touch 0 leftX leftY false true,
          TouchEvent.palmTouch leftX leftY 0 2 true false])
      else (s1, [TouchEvent.palmTouch leftX leftY 0 2 true false])
    else (s, [])
  let s1 := step1.1
  let upd := if s1.l3TouchActive && l3 then [TouchEvent.palmTouch leftX leftY 0 2 false false] else []
  let step3 :
      TouchState × List TouchEvent :=
    if l3Released && s1.l3TouchActive then
      ({ s1 with l3TouchActive := false }, [TouchEvent.palmTouch leftX leftY 0 2 false true])
    else (s1, [])
  (step3.1, step1.2 ++ upd ++ step3.2)

/-- TouchMode.cpp lines 826-848: the R3 nine-touch palm block. -/
def r3Block (s : TouchState) (r3 r3Pressed r3Released : Bool)
    (rightX rightY : ℝ) : TouchState × List TouchEvent :=
  let step1 :
      TouchState × List TouchEvent :=
    if r3Pressed && !s.r3TouchActive then
      let s1 := { s with r3TouchActive := true }
      if s1.rightTouchActive then
        ({ s1 with rightTouchActive := false, rightPointerLocked := false,
                   rightLockedDirection := -1, currentRHeldDirection := -1 },
         [TouchEvent.touch 1 rightX rightY false true,
          TouchEvent.palmTouch rightX rightY 1 10 true false])
      else (s1, [TouchEvent.palmTouch rightX rightY 1 10 true false])
    else (s, [])
  let s1 := step1.1
  let upd := if s1.r3TouchActive && r3 then [TouchEvent.palmTouch rightX rightY 1 10 false false] else []
  let step3 :
      TouchState × List TouchEvent :=
    if r3Released && s1.r3TouchActive then
      ({ s1 with r3TouchActive := false }, [TouchEvent.palmTouch rightX rightY 1 10 false true])
    else (s1, [])
  (step3.1, step1.2 ++ upd ++ step3.2)

/-- `ControllerMapper::handleTouchControl` (TouchMode.cpp lines 637-865):
one full input cycle.  Edge detection reads the `prev*` fields of the
incoming state; the blocks run in source order; the `prev*` fields are
stored last. -/
def handleTouchControl (s : TouchState) (l1 r1 l2 r2 l3 r3 : Bool)
    (leftX leftY rightX rightY : ℝ) : TouchState × List TouchEvent :=
  let newButtonState := l1 || r1 || l2 || r2 || l3 || r3
  let s0 := { s with
    gButtonPressCounter :=
      if !s.gAnyButtonPressed && newButtonState then s.gButtonPressCounter + 1
      else s.gButtonPressCounter,
    gPrevAnyButtonPressed := s.gAnyButtonPressed,
    gAnyButtonPressed := newButtonState }
  let lAngle := calculateAngle leftX leftY
  let rAngle := calculateAngle rightX rightY
  let lDirection := getDirection lAngle
  let rDirection := getDirection rAngle
  let l2Pressed := l2 && !s.prevL2
  let r2Pressed := r2 && !s.prevR2
  let l2Released := !l2 && s.prevL2
  let r2Released := !r2 && s.prevR2
  let l3Pressed := l3 && !s.prevL3
  let r3Pressed := r3 && !s.prevR3
  let l3Released := !l3 && s.prevL3
  let r3Released := !r3 && s.prevR3
  let l1Pressed := l1 && !s.prevL1
  let r1Pressed := r1 && !s.prevR1
  let l1Released := !l1 && s.prevL1
  let r1Released := !r1 && s.prevR1
  let p1 := l2PressedBlock s0 l2Pressed lDirection leftX leftY
  let p2 := l2ReleasedBlock p1.1 l2Released leftX leftY
  let p3 := r2PressedBlock p2.1 r2Pressed rDirection rightX rightY
  let p4 := r2ReleasedBlock p3.1 r2Released rightX rightY
  let p5 := l1Block p4.1 l1 l2 l1Pressed l1Released leftX leftY lAngle lDirection
  let p6 := r1Block p5.1 r1 r2 r1Pressed r1Released rightX rightY rAngle rDirection
  let ev7 := bothSendBlock p6.1 leftX leftY rightX rightY
  let p8 := l3Block p6.1 l3 l3Pressed l3Released leftX leftY
  let p9 := r3Block p8.1 r3 r3Pressed r3Released rightX rightY
  let s10 := { p9.1 with prevL1 := l1, prevR1 := r1, prevL2 := l2, prevR2 := r2,
                         prevL3 := l3, prevR3 := r3 }
  (s10, p1.2 ++ p2.2 ++ p3.2 ++ p4.2 ++ p5.2 ++ p6.2 ++ ev7 ++ p8.2 ++ p9.2)

/-- States reachable from the zero-initialized state by cycles in which the
left bumper (`l1`) is never pressed — i.e. trigger/stick-click-only
operation of the left side. -/
inductive ReachableNoBumper : TouchState → Prop where
  | init : ReachableNoBumper initTouchState
  | step (s : TouchState) (r1 l2 r2 l3 r3 : Bool) (lx ly rx ry : ℝ) :
      ReachableNoBumper s →
      ReachableNoBumper (handleTouchControl s false r1 l2 r2 l3 r3 lx ly rx ry).1

end

/-! ## Shared evaluation lemmas -/

theorem sectorCenterAngle_three : sectorCenterAngle 3 = 157.5 := by
  norm_num [sectorCenterAngle, DEGREES_PER_SECTOR]

theorem sectorCenterAngle_five : sectorCenterAngle 5 = 247.5 := by
  norm_num [sectorCenterAngle, DEGREES_PER_SECTOR]

theorem circularDistance_left_tie : circularDistance 202.5 157.5 = 45 := by
  unfold circularDistance
  rw [show |(202.5 : ℝ) - 157.5| = 45 by rw [abs_of_nonneg] <;> norm_num]
  norm_num

theorem circularDistance_right_tie : circularDistance 202.5 247.5 = 45 := by
  unfold circularDistance
  rw [show |(202.5 : ℝ) - 247.5| = 45 by rw [abs_of_nonpos] <;> norm_num]
  norm_num

theorem lock_candidates_zero_left : ((((0 : ℤ) + 4) % 8 - 1 + 8) % 8) = 3 := by decide

theorem lock_candidates_zero_right : ((((0 : ℤ) + 4) % 8 + 1) % 8) = 5 := by decide

theorem tie_at_202_5 :
    circularDistance 202.5 (sectorCenterAngle ((((0 : ℤ) + 4) % 8 - 1 + 8) % 8)) =
      circularDistance 202.5 (sectorCenterAngle ((((0 : ℤ) + 4) % 8 + 1) % 8)) := by
  rw [lock_candidates_zero_left, lock_candidates_zero_right,
      sectorCenterAngle_three, sectorCenterAngle_five,
      circularDistance_left_tie, circularDistance_right_tie]

/-! ## C10 -/

/-- C10: for every direction outside `[0,7]` (including the `NONE`
sentinel `-1`), `getDirectionArcCenter` is total and returns the origin
`(0, 0)`. -/
theorem getDirectionArcCenter_invalid_eq_origin (d : ℤ) (h : d < 0 ∨ 8 ≤ d) :
    getDirectionArcCenter d = (0, 0) := by
  simp only [getDirectionArcCenter, DIRECTION_SECTORS]
  rw [if_pos h]

/-- Witness for C10 at the sentinel input `-1`. -/
theorem getDirectionArcCenter_invalid_eq_origin_witness :
    ((-1 : ℤ) < 0 ∨ (8 : ℤ) ≤ -1) ∧ getDirectionArcCenter (-1) = (0, 0) :=
  ⟨Or.inl (by decide), getDirectionArcCenter_invalid_eq_origin (-1) (Or.inl (by decide))⟩

/-! ## C2 -/

/-- C2: for a held sector in `[0,7]`, `checkPointerLock` reports no lock
exactly when the current sector is the `NONE` sentinel; otherwise it
returns a definite sector that is one of the two sectors adjacent to
`(held+4) mod 8` and never `held` itself. -/
theorem checkPointerLock_none_iff_and_adjacent (held current : ℤ) (angle : ℝ)
    (hheld0 : 0 ≤ held) (hheld7 : held < 8)
    (hcur : current = -1 ∨ (0 ≤ current ∧ current < 8)) :
    (checkPointerLock held current angle = none ↔ current = -1) ∧
    (∀ d : ℤ, checkPointerLock held current angle = some d →
      (d = ((held + 4) % 8 - 1 + 8) % 8 ∨ d = ((held + 4) % 8 + 1) % 8) ∧ d ≠ held) := by
  simp only [checkPointerLock]
  rcases hcur with hc | ⟨hc0, hc8⟩
  · subst hc
    rw [if_pos (Or.inr (by norm_num))]
    exact ⟨by simp, fun d hd => by simp at hd⟩
  · rw [if_neg (by omega)]
    constructor
    · constructor
      · intro h
        exfalso
        revert h
        split <;> simp
      · intro h
        omega
    · intro d hd
      split at hd
      · cases hd
        exact ⟨Or.inl rfl, by omega⟩
      · cases hd
        exact ⟨Or.inr rfl, by omega⟩

/-- Witness for C2 at `held = 0`, `current = -1` (the `NONE` branch). -/
theorem checkPointerLock_none_iff_and_adjacent_witness :
    ((0 : ℤ) ≤ 0 ∧ (0 : ℤ) < 8 ∧ ((-1 : ℤ) = -1 ∨ (0 ≤ (-1 : ℤ) ∧ (-1 : ℤ) < 8))) ∧
    ((checkPointerLock 0 (-1) 0 = none ↔ (-1 : ℤ) = -1) ∧
     (∀ d : ℤ, checkPointerLock 0 (-1) 0 = some d →
       (d = ((0 + 4) % 8 - 1 + 8) % 8 ∨ d = ((0 + 4) % 8 + 1) % 8) ∧ d ≠ 0)) :=
  ⟨⟨le_refl 0, by norm_num, Or.inl rfl⟩,
   checkPointerLock_none_iff_and_adjacent 0 (-1) 0 (le_refl 0) (by norm_num) (Or.inl rfl)⟩

/-! ## C4 -/

/-- C4 counterexample: with `held = 0` and `currentAngle = 202.5` the live
angle is exactly equidistant (45°) from the two candidate centers 157.5°
(left candidate 3) and 247.5° (right candidate 5), yet `checkPointerLock`
selects the right candidate 5, not the left candidate 3 as the claim
states. -/
theorem checkPointerLock_tie_counterexample :
    circularDistance 202.5 (sectorCenterAngle ((((0 : ℤ) + 4) % 8 - 1 + 8) % 8)) =
      circularDistance 202.5 (sectorCenterAngle ((((0 : ℤ) + 4) % 8 + 1) % 8)) ∧
    checkPointerLock 0 4 202.5 = some 5 ∧
    (5 : ℤ) ≠ (((0 : ℤ) + 4) % 8 - 1 + 8) % 8 := by
  refine ⟨tie_at_202_5, ?_, by decide⟩
  simp only [checkPointerLock]
  rw [if_neg (by omega), lock_candidates_zero_left, lock_candidates_zero_right,
      sectorCenterAngle_three, sectorCenterAngle_five,
      circularDistance_left_tie, circularDistance_right_tie,
      if_neg (lt_irrefl (45 : ℝ))]

/-- C4 amended: on an exact tie of the two circular distances,
`checkPointerLock` selects the right candidate `((held+4) mod 8 + 1) mod 8`
(the `<` comparison fails on equality, taking the else branch). -/
theorem checkPointerLock_tie_selects_right (held current : ℤ) (angle : ℝ)
    (hheld : 0 ≤ held) (hcur : 0 ≤ current)
    (htie : circularDistance angle (sectorCenterAngle (((held + 4) % 8 - 1 + 8) % 8)) =
            circularDistance angle (sectorCenterAngle (((held + 4) % 8 + 1) % 8))) :
    checkPointerLock held current angle = some (((held + 4) % 8 + 1) % 8) := by
  simp only [checkPointerLock]
  rw [if_neg (by omega), htie, if_neg (lt_irrefl _)]

/-- Witness for the amended C4 at `held = 0`, `current = 4`,
`angle = 202.5`. -/
theorem checkPointerLock_tie_selects_right_witness :
    ((0 : ℤ) ≤ 0 ∧ (0 : ℤ) ≤ 4 ∧
      circularDistance 202.5 (sectorCenterAngle ((((0 : ℤ) + 4) % 8 - 1 + 8) % 8)) =
        circularDistance 202.5 (sectorCenterAngle ((((0 : ℤ) + 4) % 8 + 1) % 8))) ∧
    checkPointerLock 0 4 202.5 = some ((((0 : ℤ) + 4) % 8 + 1) % 8) :=
  ⟨⟨le_refl 0, by norm_num, tie_at_202_5⟩,
   checkPointerLock_tie_selects_right 0 4 202.5 (le_refl 0) (by norm_num) tie_at_202_5⟩

/-! ## Range of calculateAngle (shared by C3 and C9) -/

/-- For any non-center stick, the angle pipeline lands in `(0, 360]`:
the final `360 - angle` step never produces `0`, and produces exactly
`360` when the re-based angle is exactly `0`. -/
theorem calculateAngle_pos_le (x y : ℝ) (h : ¬(x = 0 ∧ y = 0)) :
    0 < calculateAngle x y ∧ calculateAngle x y ≤ 360 := by
  simp only [calculateAngle, atan2, PI]
  rw [if_neg h]
  have h1 : Complex.arg (↑x + ↑y * Complex.I) ≤ Real.pi := Complex.arg_le_pi _
  have h2 : -Real.pi < Complex.arg (↑x + ↑y * Complex.I) := Complex.neg_pi_lt_arg _
  have hpi1 : (3 : ℝ) < Real.pi := Real.pi_gt_three
  have hpi2 : Real.pi < 3.15 := Real.pi_lt_d2
  set a := Complex.arg (↑x + ↑y * Complex.I) with ha
  have hub : a * 180 / 3.14159265359 < 181 := by
    rw [div_lt_iff₀ (by norm_num)]
    nlinarith
  have hlb : -181 < a * 180 / 3.14159265359 := by
    rw [lt_div_iff₀ (by norm_num)]
    nlinarith
  split_ifs <;> constructor <;> linarith

/-! ## C3 -/

/-- C3 counterexample: at the concrete non-center input
`(cos(PI/2), sin(PI/2))` — a direction a hair past straight up, where
`atan2` returns exactly `PI/2` so the re-based angle is exactly `0` —
`calculateAngle` returns exactly `360`, which is outside `[0, 360)`. -/
theorem calculateAngle_returns_360 :
    ¬(Real.cos (PI / 2) = 0 ∧ Real.sin (PI / 2) = 0) ∧
    calculateAngle (Real.cos (PI / 2)) (Real.sin (PI / 2)) = 360 := by
  have hpi1 : (3 : ℝ) < Real.pi := Real.pi_gt_three
  have hne : ¬(Real.cos (PI / 2) = 0 ∧ Real.sin (PI / 2) = 0) := by
    rintro ⟨hc, hs⟩
    have hone := Real.sin_sq_add_cos_sq (PI / 2)
    rw [hc, hs] at hone
    norm_num at hone
  refine ⟨hne, ?_⟩
  have harg : atan2 (Real.sin (PI / 2)) (Real.cos (PI / 2)) = PI / 2 := by
    unfold atan2
    rw [Complex.ofReal_cos, Complex.ofReal_sin]
    refine Complex.arg_cos_add_sin_mul_I ⟨?_, ?_⟩
    · norm_num [PI]; linarith
    · norm_num [PI]; linarith
  simp only [calculateAngle]
  rw [if_neg hne, harg]
  norm_num [PI]

/-- C3 amended: for every stick vector other than the exact center,
`calculateAngle` returns a value in the half-open interval `(0, 360]` —
it can return exactly `360` (and then `getDirection`'s clamp maps the
sector back to `0`), and it never returns `0`. -/
theorem calculateAngle_range (x y : ℝ) (h : ¬(x = 0 ∧ y = 0)) :
    0 < calculateAngle x y ∧ calculateAngle x y ≤ 360 :=
  calculateAngle_pos_le x y h

/-- Witness for the amended C3 at the stick `(1, 0)`. -/
theorem calculateAngle_range_witness :
    ¬((1 : ℝ) = 0 ∧ (0 : ℝ) = 0) ∧
    (0 < calculateAngle 1 0 ∧ calculateAngle 1 0 ≤ 360) :=
  ⟨by norm_num, calculateAngle_range 1 0 (by norm_num)⟩

/-! ## C9 -/

/-- C9: for every non-center stick vector, the composition
`getDirection (calculateAngle x y)` lands in `[0, 7]`: even when the
angle reaches the boundary value `360` (floor `8`), the clamp in
`getDirection` maps it to sector `0`. -/
theorem getDirection_calculateAngle_in_range (x y : ℝ) (h : ¬(x = 0 ∧ y = 0)) :
    0 ≤ getDirection (calculateAngle x y) ∧ getDirection (calculateAngle x y) < 8 := by
  obtain ⟨h0, h360⟩ := calculateAngle_pos_le x y h
  simp only [getDirection, DEGREES_PER_SECTOR, DIRECTION_SECTORS]
  rw [if_neg (by linarith)]
  have hge : (0 : ℤ) ≤ ⌊calculateAngle x y / 45.0⌋ :=
    Int.floor_nonneg.2 (div_nonneg h0.le (by norm_num))
  have hlt : ⌊calculateAngle x y / 45.0⌋ < 9 := by
    rw [Int.floor_lt]
    rw [div_lt_iff₀ (by norm_num : (0 : ℝ) < 45.0)]
    push_cast
    linarith
  split_ifs with hd
  · exact ⟨by norm_num, by norm_num⟩
  · exact ⟨hge, by omega⟩

/-- Witness for C9 at the stick `(1, 0)`. -/
theorem getDirection_calculateAngle_in_range_witness :
    ¬((1 : ℝ) = 0 ∧ (0 : ℝ) = 0) ∧
    (0 ≤ getDirection (calculateAngle 1 0) ∧ getDirection (calculateAngle 1 0) < 8) :=
  ⟨by norm_num, getDirection_calculateAngle_in_range 1 0 (by norm_num)⟩

/-! ## C1 and C8: the position projector -/

/-- Arc center of a valid sector, unfolded to its sin/cos components. -/
theorem getDirectionArcCenter_valid (d : ℤ) (h0 : 0 ≤ d) (h8 : d < 8) :
    getDirectionArcCenter d =
      (Real.sin (sectorCenterAngle d * PI / 180),
       Real.cos (sectorCenterAngle d * PI / 180)) := by
  simp only [getDirectionArcCenter, DIRECTION_SECTORS]
  rw [if_neg (by omega)]

/-- C1: for valid held and endpoint sectors and an arbitrary stick vector,
`calculateLockedPosition` returns a point of the straight segment between
the two arc centers (`start + t·(end - start)` with `t ∈ [0,1]`), and in
the degenerate case where the two arc centers coincide it returns the
start point (no division by zero occurs: normalization is skipped). -/
theorem calculateLockedPosition_on_segment (held endpoint : ℤ)
    (hh0 : 0 ≤ held) (hh8 : held < 8) (he0 : 0 ≤ endpoint) (he8 : endpoint < 8)
    (x y : ℝ) :
    (∃ t : ℝ, 0 ≤ t ∧ t ≤ 1 ∧
      calculateLockedPosition held endpoint x y =
        ((getDirectionArcCenter held).1 +
           t * ((getDirectionArcCenter endpoint).1 - (getDirectionArcCenter held).1),
         (getDirectionArcCenter held).2 +
           t * ((getDirectionArcCenter endpoint).2 - (getDirectionArcCenter held).2))) ∧
    (getDirectionArcCenter endpoint = getDirectionArcCenter held →
      calculateLockedPosition held endpoint x y = getDirectionArcCenter held) := by
  rw [getDirectionArcCenter_valid held hh0 hh8, getDirectionArcCenter_valid endpoint he0 he8]
  simp only [calculateLockedPosition, getDirectionArcCenter_valid held hh0 hh8]
  set sx := Real.sin (sectorCenterAngle held * PI / 180) with hsx
  set sy := Real.cos (sectorCenterAngle held * PI / 180) with hsy
  set ex := Real.sin (sectorCenterAngle endpoint * PI / 180) with hex
  set ey := Real.cos (sectorCenterAngle endpoint * PI / 180) with hey
  set px := ex - sx with hpx
  set py := ey - sy with hpy
  set L := Real.sqrt (px * px + py * py) with hLdef
  have hLnn : 0 ≤ L := Real.sqrt_nonneg _
  by_cases hLpos : L > 0
  · have hLne : L ≠ 0 := ne_of_gt hLpos
    have hL2 : L * L = px * px + py * py :=
      Real.mul_self_sqrt (by nlinarith [mul_self_nonneg px, mul_self_nonneg py])
    rw [if_pos hLpos, if_pos hLpos]
    constructor
    · set t0 := (x - sx) * (px / L) + (y - sy) * (py / L) with ht0
      by_cases hc1 : t0 < 0
      · rw [if_pos hc1, if_neg (by simpa using not_lt.2 hLnn)]
        exact ⟨0, le_refl 0, zero_le_one, by simp⟩
      · rw [if_neg hc1]
        by_cases hc2 : t0 > L
        · rw [if_pos hc2]
          refine ⟨1, zero_le_one, le_refl 1, ?_⟩
          simp only [Prod.mk.injEq]
          constructor <;> field_simp
        · rw [if_neg hc2]
          refine ⟨t0 / L, div_nonneg (not_lt.1 hc1) hLnn, (div_le_one hLpos).2 (not_lt.1 hc2), ?_⟩
          simp only [Prod.mk.injEq]
          constructor <;> field_simp
    · intro heq
      exfalso
      have h1 : ex = sx := congrArg Prod.fst heq
      have h2 : ey = sy := congrArg Prod.snd heq
      have : L = 0 := by
        rw [hLdef, hpx, hpy, h1, h2]
        simp
      exact hLne this
  · have hL0 : L = 0 := le_antisymm (not_lt.1 hLpos) hLnn
    have hsq : px * px + py * py = 0 := by
      have hle : px * px + py * py ≤ 0 := Real.sqrt_eq_zero'.1 hL0
      nlinarith [mul_self_nonneg px, mul_self_nonneg py]
    have hpx0 : px = 0 := by nlinarith [mul_self_nonneg px, mul_self_nonneg py]
    have hpy0 : py = 0 := by nlinarith [mul_self_nonneg px, mul_self_nonneg py]
    rw [if_neg hLpos, if_neg hLpos, hpx0, hpy0]
    constructor
    · refine ⟨0, le_refl 0, zero_le_one, ?_⟩
      simp [hL0]
    · intro _
      simp [hL0]

/-- C8: projecting either endpoint of the lock segment is the identity:
the held arc center projects to itself, and the endpoint arc center
projects to itself (the unclamped projection scalar is exactly the path
length there). -/
theorem calculateLockedPosition_endpoint_identity (held endpoint : ℤ)
    (hh0 : 0 ≤ held) (hh8 : held < 8) (he0 : 0 ≤ endpoint) (he8 : endpoint < 8) :
    calculateLockedPosition held endpoint
        (getDirectionArcCenter held).1 (getDirectionArcCenter held).2 =
      getDirectionArcCenter held ∧
    calculateLockedPosition held endpoint
        (getDirectionArcCenter endpoint).1 (getDirectionArcCenter endpoint).2 =
      getDirectionArcCenter endpoint := by
  rw [getDirectionArcCenter_valid held hh0 hh8, getDirectionArcCenter_valid endpoint he0 he8]
  simp only [calculateLockedPosition, getDirectionArcCenter_valid held hh0 hh8]
  set sx := Real.sin (sectorCenterAngle held * PI / 180) with hsx
  set sy := Real.cos (sectorCenterAngle held * PI / 180) with hsy
  set ex := Real.sin (sectorCenterAngle endpoint * PI / 180) with hex
  set ey := Real.cos (sectorCenterAngle endpoint * PI / 180) with hey
  set px := ex - sx with hpx
  set py := ey - sy with hpy
  set L := Real.sqrt (px * px + py * py) with hLdef
  have hLnn : 0 ≤ L := Real.sqrt_nonneg _
  constructor
  · have h0 : (sx - sx : ℝ) = 0 := sub_self sx
    have h0' : (sy - sy : ℝ) = 0 := sub_self sy
    rw [h0, h0']
    simp only [zero_mul, add_zero]
    rw [if_neg (by norm_num : ¬ (0 : ℝ) < 0), if_neg (by simpa using not_lt.2 hLnn)]
    simp
  · by_cases hLpos : L > 0
    · have hLne : L ≠ 0 := ne_of_gt hLpos
      have hL2 : L * L = px * px + py * py :=
        Real.mul_self_sqrt (by nlinarith [mul_self_nonneg px, mul_self_nonneg py])
      rw [if_pos hLpos, if_pos hLpos]
      have ht0 : (ex - sx) * (px / L) + (ey - sy) * (py / L) = L := by
        rw [← hpx, ← hpy]
        field_simp
        linarith [hL2]
      have hinner : (if L < 0 then (0 : ℝ) else L) = L := if_neg (not_lt.2 hLnn)
      rw [ht0, hinner, if_neg (lt_irrefl L), hpx, hpy]
      simp only [Prod.mk.injEq]
      constructor <;> field_simp
    · have hL0 : L = 0 := le_antisymm (not_lt.1 hLpos) hLnn
      have hsq : px * px + py * py = 0 := by
        have hle : px * px + py * py ≤ 0 := Real.sqrt_eq_zero'.1 hL0
        nlinarith [mul_self_nonneg px, mul_self_nonneg py]
      have hpx0 : px = 0 := by nlinarith [mul_self_nonneg px, mul_self_nonneg py]
      have hpy0 : py = 0 := by nlinarith [mul_self_nonneg px, mul_self_nonneg py]
      have h1 : ex = sx := by rw [← sub_eq_zero]; exact hpx0
      have h2 : ey = sy := by rw [← sub_eq_zero]; exact hpy0
      rw [if_neg hLpos, if_neg hLpos, hpx0, hpy0, h1, h2]
      simp [hL0]

/-- Witness for C1 at `held = 0`, `endpoint = 3`, stick `(5, -7)` (far
outside the unit circle). -/
theorem calculateLockedPosition_on_segment_witness :
    ((0 : ℤ) ≤ 0 ∧ (0 : ℤ) < 8 ∧ (0 : ℤ) ≤ 3 ∧ (3 : ℤ) < 8) ∧
    ((∃ t : ℝ, 0 ≤ t ∧ t ≤ 1 ∧
      calculateLockedPosition 0 3 5 (-7) =
        ((getDirectionArcCenter 0).1 +
           t * ((getDirectionArcCenter 3).1 - (getDirectionArcCenter 0).1),
         (getDirectionArcCenter 0).2 +
           t * ((getDirectionArcCenter 3).2 - (getDirectionArcCenter 0).2))) ∧
    (getDirectionArcCenter 3 = getDirectionArcCenter 0 →
      calculateLockedPosition 0 3 5 (-7) = getDirectionArcCenter 0)) :=
  ⟨⟨le_refl 0, by norm_num, by norm_num, by norm_num⟩,
   calculateLockedPosition_on_segment 0 3 (le_refl 0) (by norm_num) (by norm_num)
     (by norm_num) 5 (-7)⟩

/-- Witness for C8 at `held = 0`, `endpoint = 3`. -/
theorem calculateLockedPosition_endpoint_identity_witness :
    ((0 : ℤ) ≤ 0 ∧ (0 : ℤ) < 8 ∧ (0 : ℤ) ≤ 3 ∧ (3 : ℤ) < 8) ∧
    (calculateLockedPosition 0 3
        (getDirectionArcCenter 0).1 (getDirectionArcCenter 0).2 =
      getDirectionArcCenter 0 ∧
    calculateLockedPosition 0 3
        (getDirectionArcCenter 3).1 (getDirectionArcCenter 3).2 =
      getDirectionArcCenter 3) :=
  ⟨⟨le_refl 0, by norm_num, by norm_num, by norm_num⟩,
   calculateLockedPosition_endpoint_identity 0 3 (le_refl 0) (by norm_num) (by norm_num)
     (by norm_num)⟩

/-! ## C7: the angle/sector round-trip -/

/-- `atan2` applied to the point `(cos β, sin β)` recovers `β` when `β`
is inside the principal range of the complex argument. -/
theorem atan2_of_cos_sin (β : ℝ) (h1 : -Real.pi < β) (h2 : β ≤ Real.pi) :
    atan2 (Real.sin β) (Real.cos β) = β := by
  unfold atan2
  rw [Complex.ofReal_cos, Complex.ofReal_sin]
  exact Complex.arg_cos_add_sin_mul_I ⟨h1, h2⟩

/-- `atan2` at the rotated-by-90°-clockwise point `(sin α, cos α)`
(the arc-center convention `x = sin, y = cos`). -/
theorem atan2_sin_cos (α : ℝ) (h1 : -Real.pi < Real.pi / 2 - α)
    (h2 : Real.pi / 2 - α ≤ Real.pi) :
    atan2 (Real.cos α) (Real.sin α) = Real.pi / 2 - α := by
  have h := atan2_of_cos_sin (Real.pi / 2 - α) h1 h2
  rwa [Real.sin_pi_div_two_sub, Real.cos_pi_div_two_sub] at h

/-- Shifted variant of `atan2_sin_cos` for arc centers past 270°, where
the principal argument is `5π/2 - α` instead of `π/2 - α`. -/
theorem atan2_sin_cos_shift (α : ℝ) (h1 : -Real.pi < 5 * Real.pi / 2 - α)
    (h2 : 5 * Real.pi / 2 - α ≤ Real.pi) :
    atan2 (Real.cos α) (Real.sin α) = 5 * Real.pi / 2 - α := by
  have h := atan2_of_cos_sin (5 * Real.pi / 2 - α) h1 h2
  have e1 : Real.sin (5 * Real.pi / 2 - α) = Real.cos α := by
    rw [show 5 * Real.pi / 2 - α = (Real.pi / 2 - α) + 2 * Real.pi by ring,
        Real.sin_add_two_pi, Real.sin_pi_div_two_sub]
  have e2 : Real.cos (5 * Real.pi / 2 - α) = Real.sin α := by
    rw [show 5 * Real.pi / 2 - α = (Real.pi / 2 - α) + 2 * Real.pi by ring,
        Real.cos_add_two_pi, Real.cos_pi_div_two_sub]
  rwa [e1, e2] at h

/-- Closed form of the `calculateAngle` normalization pipeline when the
degree-converted `atan2` value `A` lies in `[-270, 90)`. -/
theorem angle_pipeline_low (A : ℝ) (h1 : -270 ≤ A) (h2 : A < 90) :
    (360 : ℝ) -
      (if (if A < 0 then A + 360 else A) - 90 < 0
       then (if A < 0 then A + 360 else A) - 90 + 360
       else (if A < 0 then A + 360 else A) - 90) = 90 - A := by
  by_cases hA : A < 0
  · rw [if_pos hA, if_neg (by linarith)]
    ring
  · rw [if_neg hA, if_pos (by linarith)]
    ring

/-- Closed form of the `calculateAngle` normalization pipeline when the
degree-converted `atan2` value `A` is at least `90`. -/
theorem angle_pipeline_high (A : ℝ) (h : 90 ≤ A) :
    (360 : ℝ) -
      (if (if A < 0 then A + 360 else A) - 90 < 0
       then (if A < 0 then A + 360 else A) - 90 + 360
       else (if A < 0 then A + 360 else A) - 90) = 450 - A := by
  have hinner : (if A < 0 then A + 360 else A) = A := if_neg (by linarith)
  rw [hinner, if_neg (by linarith)]
  ring

/-- Evaluation of `getDirection` from two-sided bounds placing the angle
inside sector `d`. -/
theorem getDirection_eval (A : ℝ) (d : ℤ) (hne : A ≠ -1)
    (hlow : (d : ℝ) * 45 ≤ A) (hhigh : A < (d : ℝ) * 45 + 45) (hd : d < 8) :
    getDirection A = d := by
  simp only [getDirection, DEGREES_PER_SECTOR, DIRECTION_SECTORS]
  rw [if_neg hne]
  have hfloor : ⌊A / 45.0⌋ = d := by
    rw [Int.floor_eq_iff]
    constructor
    · rw [le_div_iff₀ (by norm_num : (0 : ℝ) < 45.0)]
      linarith
    · rw [div_lt_iff₀ (by norm_num : (0 : ℝ) < 45.0)]
      linarith
  rw [hfloor, if_neg (by omega)]

/-- The sector-center angle never wraps for valid sectors. -/
theorem sectorCenterAngle_valid (d : ℤ) (h8 : d < 8) :
    sectorCenterAngle d = (d : ℝ) * 45.0 + 22.5 := by
  have hdr : (d : ℝ) ≤ 7 := by exact_mod_cast Int.lt_add_one_iff.1 h8
  simp only [sectorCenterAngle, DEGREES_PER_SECTOR]
  rw [if_neg (by linarith)]

/-- Round-trip for the six sectors whose arc-center angle stays below the
270° fold of the principal `atan2` range. -/
theorem roundtrip_case_low (d : ℤ) (hd0 : 0 ≤ d) (hd5 : d ≤ 5) :
    getDirection (calculateAngle (getDirectionArcCenter d).1 (getDirectionArcCenter d).2) = d := by
  have hpi1 : (3 : ℝ) < Real.pi := Real.pi_gt_three
  have hpi2 : Real.pi < 3.15 := Real.pi_lt_d2
  have hdr0 : (0 : ℝ) ≤ (d : ℝ) := by exact_mod_cast hd0
  have hdr5 : (d : ℝ) ≤ 5 := by exact_mod_cast hd5
  rw [getDirectionArcCenter_valid d hd0 (by omega), sectorCenterAngle_valid d (by omega)]
  set α := ((d : ℝ) * 45.0 + 22.5) * PI / 180 with hα
  have hα_lb : (0.35 : ℝ) < α := by
    rw [hα]
    simp only [PI]
    rw [lt_div_iff₀ (by norm_num : (0 : ℝ) < 180)]
    nlinarith
  have hα_ub : α < 4.33 := by
    rw [hα]
    simp only [PI]
    rw [div_lt_iff₀ (by norm_num : (0 : ℝ) < 180)]
    nlinarith
  have hguard : ¬ (Real.sin α = 0 ∧ Real.cos α = 0) := by
    rintro ⟨hs, hcc⟩
    have hone := Real.sin_sq_add_cos_sq α
    rw [hs, hcc] at hone
    norm_num at hone
  have hatan : atan2 (Real.cos α) (Real.sin α) = Real.pi / 2 - α :=
    atan2_sin_cos α (by linarith) (by linarith)
  simp only [calculateAngle]
  rw [if_neg hguard, hatan]
  have hPIne : PI ≠ 0 := by norm_num [PI]
  have hAeq : (Real.pi / 2 - α) * 180 / PI =
      90 * Real.pi / PI - ((d : ℝ) * 45.0 + 22.5) := by
    rw [hα]
    field_simp
    ring
  have hB1 : 90 * Real.pi / PI < 90.3 := by
    simp only [PI]
    rw [div_lt_iff₀ (by norm_num : (0 : ℝ) < 3.14159265359)]
    nlinarith
  have hB2 : (85.9 : ℝ) < 90 * Real.pi / PI := by
    simp only [PI]
    rw [lt_div_iff₀ (by norm_num : (0 : ℝ) < 3.14159265359)]
    nlinarith
  rw [angle_pipeline_low ((Real.pi / 2 - α) * 180 / PI) (by rw [hAeq]; linarith)
      (by rw [hAeq]; linarith), hAeq]
  exact getDirection_eval _ d (by intro hcon; linarith [hcon])
    (by linarith) (by linarith) (by omega)

/-- Round-trip for the two sectors (6 and 7) whose arc-center angle lies
past the 270° fold, where `atan2` returns the shifted value. -/
theorem roundtrip_case_high (d : ℤ) (hd6 : 6 ≤ d) (hd7 : d ≤ 7) :
    getDirection (calculateAngle (getDirectionArcCenter d).1 (getDirectionArcCenter d).2) = d := by
  have hpi1 : (3 : ℝ) < Real.pi := Real.pi_gt_three
  have hpi2 : Real.pi < 3.15 := Real.pi_lt_d2
  have hdr6 : (6 : ℝ) ≤ (d : ℝ) := by exact_mod_cast hd6
  have hdr7 : (d : ℝ) ≤ 7 := by exact_mod_cast hd7
  rw [getDirectionArcCenter_valid d (by omega) (by omega), sectorCenterAngle_valid d (by omega)]
  set α := ((d : ℝ) * 45.0 + 22.5) * PI / 180 with hα
  have hα_lb : (5.1 : ℝ) < α := by
    rw [hα]
    simp only [PI]
    rw [lt_div_iff₀ (by norm_num : (0 : ℝ) < 180)]
    nlinarith
  have hα_ub : α < 5.9 := by
    rw [hα]
    simp only [PI]
    rw [div_lt_iff₀ (by norm_num : (0 : ℝ) < 180)]
    nlinarith
  have hguard : ¬ (Real.sin α = 0 ∧ Real.cos α = 0) := by
    rintro ⟨hs, hcc⟩
    have hone := Real.sin_sq_add_cos_sq α
    rw [hs, hcc] at hone
    norm_num at hone
  have hatan : atan2 (Real.cos α) (Real.sin α) = 5 * Real.pi / 2 - α :=
    atan2_sin_cos_shift α (by linarith) (by linarith)
  simp only [calculateAngle]
  rw [if_neg hguard, hatan]
  have hPIne : PI ≠ 0 := by norm_num [PI]
  have hAeq : (5 * Real.pi / 2 - α) * 180 / PI =
      450 * Real.pi / PI - ((d : ℝ) * 45.0 + 22.5) := by
    rw [hα]
    field_simp
    ring
  have hC1 : 450 * Real.pi / PI < 452 := by
    simp only [PI]
    rw [div_lt_iff₀ (by norm_num : (0 : ℝ) < 3.14159265359)]
    nlinarith
  have hC2 : (429.7 : ℝ) < 450 * Real.pi / PI := by
    simp only [PI]
    rw [lt_div_iff₀ (by norm_num : (0 : ℝ) < 3.14159265359)]
    nlinarith
  rw [angle_pipeline_high ((5 * Real.pi / 2 - α) * 180 / PI) (by rw [hAeq]; linarith), hAeq]
  exact getDirection_eval _ d (by intro hcon; linarith [hcon])
    (by linarith) (by linarith) (by omega)

/-- C7: for every sector `s` in `[0,7]`, feeding the arc-center point of
`s` back through the angle and sector functions returns `s`:
`getDirection (calculateAngle (arcCenter s)) = s`. -/
theorem getDirection_calculateAngle_arcCenter (d : ℤ) (h0 : 0 ≤ d) (h8 : d < 8) :
    getDirection (calculateAngle (getDirectionArcCenter d).1 (getDirectionArcCenter d).2) = d := by
  rcases le_or_lt d 5 with h | h
  · exact roundtrip_case_low d h0 h
  · exact roundtrip_case_high d (by omega) (by omega)

/-- Witness for C7 at sector `0`. -/
theorem getDirection_calculateAngle_arcCenter_witness :
    ((0 : ℤ) ≤ 0 ∧ (0 : ℤ) < 8) ∧
    getDirection (calculateAngle (getDirectionArcCenter 0).1 (getDirectionArcCenter 0).2) = 0 :=
  ⟨⟨le_refl 0, by norm_num⟩,
   getDirection_calculateAngle_arcCenter 0 (le_refl 0) (by norm_num)⟩

end CWS
